import Mathlib

/-!
Verification of the Expense-Splitter backend core services.

This file shallowly embeds the Python services of the repository
(`backend/services/matching_service.py`, `deduplication_service.py`,
`splitting_service.py`, `extraction_service.py`) and proves the
specification claims about them.

Modelling conventions, used consistently below:
* Python `float` values are modelled as exact rationals (`ℚ`); every
  arithmetic step of the embedded code mirrors the corresponding Python
  expression on the decimal constants it is written with.
* Python `None`-able values are `Option`s, and Python truthiness
  (`if not x:`) is modelled explicitly where a branch depends on it
  (`None`, `0.0` and `""` are falsy).
* Python `datetime.date` values are either day numbers (`ℤ`, where only
  day differences matter, matching service) or triples year/month/day
  (`PyDate`, where the calendar matters, extraction/deduplication).
* External primitives that the services call (the `rapidfuzz` similarity
  functions, the SHA-256 digest) are taken as parameters of the embedded
  functions, so that theorems quantify over their behaviour.
* Python `str` is `String`; the regular-expression based extraction code
  is embedded through a small backtracking regex interpreter over
  `List Char` that mirrors the leftmost/greedy/lazy preference order of
  Python's `re` module for the constructs these patterns use.
-/

/-! ## Python value helpers -/

/-- Python truthiness of an optional float: `None` and `0.0` are falsy. -/
def pyTruthyFloat : Option ℚ → Bool
  | none => false
  | some a => a != 0

/-- Python truthiness of an optional string: `None` and `""` are falsy. -/
def pyTruthyStr : Option String → Bool
  | none => false
  | some s => s != ""

/-! ## matching_service.py -/

namespace MatchingService

/-- Data class for match scoring details (`MatchScore`, matching_service.py
lines 7-16).  `transaction_id` keys may be absent from the input dicts, so the
two id fields are `Option String` (Python `dict.get` returns `None` then). -/
structure MatchScore where
  car_transaction_id : Option String
  receipt_transaction_id : Option String
  confidence_score : ℚ
  date_score : ℚ
  amount_score : ℚ
  employee_score : ℚ
  merchant_score : ℚ
deriving DecidableEq, Repr

/-- Transaction dict as consumed by `calculate_match_score` (keys read via
`dict.get`): `transaction_id`, `date`, `amount`, `employee_id`, `merchant`. -/
structure TransactionDict where
  transaction_id : Option String
  date : Option ℤ
  amount : Option ℚ
  employee_id : Option String
  merchant : Option String
deriving DecidableEq, Repr

/-- The three `rapidfuzz` similarity primitives used by
`calculate_merchant_score` (matching_service.py lines 142-144), taken as
parameters of the embedding: `ratio`, `partial_ratio` (here `part_ratio`) and
`token_sort_ratio`, each returning a 0-100 score. -/
structure Fuzz where
  ratio : String → String → ℚ
  part_ratio : String → String → ℚ
  token_sort_ratio : String → String → ℚ

/-- Matching weight constant (line 23). -/
def DATE_WEIGHT : ℚ := 30/100

/-- Matching weight constant (line 24). -/
def AMOUNT_WEIGHT : ℚ := 30/100

/-- Matching weight constant (line 25). -/
def EMPLOYEE_WEIGHT : ℚ := 25/100

/-- Matching weight constant (line 26). -/
def MERCHANT_WEIGHT : ℚ := 15/100

/-- Minimum confidence for a valid match (line 29). -/
def CONFIDENCE_THRESHOLD : ℚ := 70/100

/-- Allowed day difference (line 30). -/
def DATE_TOLERANCE_DAYS : ℤ := 1

/-- Tolerance for amount comparison (line 31). -/
def AMOUNT_TOLERANCE : ℚ := 1/100

/-- Minimum fuzzy match score for merchant names (line 32). -/
def FUZZY_MATCH_THRESHOLD : ℚ := 80

/-- Date proximity score (`calculate_date_score`, lines 38-65).  Python date
objects are always truthy, so `if not car_date or not receipt_date` is a
`None` test; `(car_date - receipt_date).days` on dates is the signed day
difference. -/
def calculate_date_score (car_date receipt_date : Option ℤ) : ℚ :=
  match car_date, receipt_date with
  | some c, some r =>
    let day_diff : ℤ := |c - r|
    if day_diff = 0 then 1
    else if day_diff ≤ DATE_TOLERANCE_DAYS then
      1 - ((day_diff : ℚ) / (DATE_TOLERANCE_DAYS : ℚ)) * (5/10)
    else 0
  | _, _ => 0

/-- Amount match score (`calculate_amount_score`, lines 67-89).  The guard is
`if not car_amount or not receipt_amount`, which treats `0.0` like `None`. -/
def calculate_amount_score (car_amount receipt_amount : Option ℚ) : ℚ :=
  if !pyTruthyFloat car_amount || !pyTruthyFloat receipt_amount then 0
  else if |car_amount.getD 0 - receipt_amount.getD 0| ≤ AMOUNT_TOLERANCE then 1
  else 0

/-- Employee ID match score (`calculate_employee_score`, lines 91-116). -/
def calculate_employee_score (car_employee_id receipt_employee_id : Option String) : ℚ :=
  if !pyTruthyStr car_employee_id || !pyTruthyStr receipt_employee_id then 0
  else
    let car_id := (car_employee_id.getD "").trim.toUpper
    let receipt_id := (receipt_employee_id.getD "").trim.toUpper
    if car_id = receipt_id then 1 else 0

/-- Merchant name fuzzy match score (`calculate_merchant_score`, lines
118-156), parameterized by the `rapidfuzz` primitives. -/
def calculate_merchant_score (fz : Fuzz) (car_merchant receipt_merchant : Option String) : ℚ :=
  if !pyTruthyStr car_merchant || !pyTruthyStr receipt_merchant then 0
  else
    let car_norm := (car_merchant.getD "").trim.toUpper
    let receipt_norm := (receipt_merchant.getD "").trim.toUpper
    let ratio_score := fz.ratio car_norm receipt_norm
    let part_score := fz.part_ratio car_norm receipt_norm
    let token_sort_score := fz.token_sort_ratio car_norm receipt_norm
    let fuzzy_score := max ratio_score (max part_score token_sort_score)
    let normalized_score := fuzzy_score / 100
    if fuzzy_score < FUZZY_MATCH_THRESHOLD then 0
    else normalized_score

/-- Weighted overall confidence (the expression at lines 195-200). -/
def overall_confidence (date_score amount_score employee_score merchant_score : ℚ) : ℚ :=
  date_score * DATE_WEIGHT +
  amount_score * AMOUNT_WEIGHT +
  employee_score * EMPLOYEE_WEIGHT +
  merchant_score * MERCHANT_WEIGHT

/-- Overall match score (`calculate_match_score`, lines 158-210). -/
def calculate_match_score (fz : Fuzz) (car_transaction receipt_transaction : TransactionDict) :
    MatchScore :=
  let date_score := calculate_date_score car_transaction.date receipt_transaction.date
  let amount_score := calculate_amount_score car_transaction.amount receipt_transaction.amount
  let employee_score :=
    calculate_employee_score car_transaction.employee_id receipt_transaction.employee_id
  let merchant_score :=
    calculate_merchant_score fz car_transaction.merchant receipt_transaction.merchant
  let confidence := overall_confidence date_score amount_score employee_score merchant_score
  { car_transaction_id := car_transaction.transaction_id
    receipt_transaction_id := receipt_transaction.transaction_id
    confidence_score := confidence
    date_score := date_score
    amount_score := amount_score
    employee_score := employee_score
    merchant_score := merchant_score }

/-- All matches above the threshold, sorted by confidence descending
(`find_matches`, lines 212-250).  Python `list.sort(key=..., reverse=True)` is
a stable descending sort, which `List.mergeSort` with the reflexive relation
`b.confidence_score ≤ a.confidence_score` reproduces. -/
def find_matches (fz : Fuzz) (car_transactions receipt_transactions : List TransactionDict)
    (min_confidence : Option ℚ) : List MatchScore :=
  let minc := min_confidence.getD CONFIDENCE_THRESHOLD
  let matchList := car_transactions.flatMap (fun car_trans =>
    receipt_transactions.filterMap (fun receipt_trans =>
      let match_score := calculate_match_score fz car_trans receipt_trans
      if match_score.confidence_score ≥ minc then some match_score else none))
  matchList.mergeSort (fun a b => decide (b.confidence_score ≤ a.confidence_score))

/-- Greedy 1:1 selection loop of `find_best_matches` (lines 284-294): walk the
sorted candidates, skipping any whose car or receipt id was already consumed,
and record consumed ids. -/
def greedy_filter : List MatchScore → List (Option String) → List (Option String) →
    List MatchScore
  | [], _, _ => []
  | m :: rest, matched_car_ids, matched_receipt_ids =>
    if m.car_transaction_id ∈ matched_car_ids ∨
        m.receipt_transaction_id ∈ matched_receipt_ids then
      greedy_filter rest matched_car_ids matched_receipt_ids
    else
      m :: greedy_filter rest (m.car_transaction_id :: matched_car_ids)
        (m.receipt_transaction_id :: matched_receipt_ids)

/-- Best 1:1 matches (`find_best_matches`, lines 252-296). -/
def find_best_matches (fz : Fuzz) (car_transactions receipt_transactions : List TransactionDict)
    (min_confidence : Option ℚ) : List MatchScore :=
  greedy_filter (find_matches fz car_transactions receipt_transactions min_confidence) [] []

end MatchingService

/-! ## Calendar dates (Python `datetime.date`) -/

/-- Python `datetime.date` value. -/
structure PyDate where
  year : ℕ
  month : ℕ
  day : ℕ
deriving DecidableEq, Repr

/-- Render a number zero-padded to two digits (month, day, cents). -/
def pad2 (n : ℕ) : String := if n < 10 then "0" ++ toString n else toString n

/-- Render a number zero-padded to four digits (years; Python years are 1-9999). -/
def pad4 (n : ℕ) : String :=
  if n < 10 then "000" ++ toString n
  else if n < 100 then "00" ++ toString n
  else if n < 1000 then "0" ++ toString n
  else toString n

/-- Python `date.isoformat()`: the `YYYY-MM-DD` string. -/
def PyDate.isoformat (d : PyDate) : String :=
  pad4 d.year ++ "-" ++ pad2 d.month ++ "-" ++ pad2 d.day

/-! ## deduplication_service.py -/

namespace DeduplicationService

/-- A value stored under the `date` key of a transaction dict: either a
`datetime.date` object or a string — the two types
`calculate_transaction_fingerprint` inspects with `isinstance`. -/
inductive DateValue where
  | pydate (d : PyDate)
  | str (s : String)
deriving DecidableEq, Repr

/-- Python truthiness of a `date` value: date objects are always truthy,
strings are truthy iff nonempty. -/
def DateValue.pyTruthy : DateValue → Bool
  | .pydate _ => true
  | .str s => s != ""

/-- Transaction dict as consumed by `calculate_transaction_fingerprint`
(deduplication_service.py lines 61-92): the four business-key fields plus the
merchant field the function never reads. -/
structure TransactionData where
  date : Option DateValue
  amount : Option ℚ
  employee_id : Option String
  transaction_type : Option String
  merchant : Option String
deriving DecidableEq, Repr

/-- Normalized date component (lines 74-79): empty unless the `date` value is
truthy; a date object is serialized with `isoformat`, a string is kept. -/
def dateComponent : Option DateValue → String
  | some v =>
    if v.pyTruthy then
      match v with
      | .pydate d => d.isoformat
      | .str s => s
    else ""
  | none => ""

/-- Round a rational to the nearest integer, ties to even — the rounding of
Python's fixed-point float formatting. -/
def roundHalfEven (q : ℚ) : ℤ :=
  let f := ⌊q⌋
  let frac := q - f
  if frac < 1/2 then f
  else if 1/2 < frac then f + 1
  else if 2 ∣ f then f else f + 1

/-- Python `f"{x:.2f}"` (line 84): the value rounded half-to-even to two
decimal places.  Python formats the signed value (printing `-0.00` for tiny
negative floats); `ℚ` has no signed zero, so the magnitude is formatted and
the sign of the input re-attached, which agrees with Python on every input. -/
def formatAmount2 (q : ℚ) : String :=
  let cents := roundHalfEven (|q| * 100)
  let sign := if q < 0 then "-" else ""
  sign ++ toString (cents / 100) ++ "." ++ pad2 (cents % 100).toNat

/-- Normalized amount component (lines 81-84): formatted to two decimals when
the amount is present (`is not None` — an explicit `None` test, so `0.0` is
formatted, not dropped). -/
def amountComponent : Option ℚ → String
  | none => ""
  | some a => formatAmount2 a

/-- Python `x or ""` on an optional string field (lines 86-87). -/
def pyOrEmpty : Option String → String
  | none => ""
  | some s => s

/-- The fingerprint payload (line 90):
`f"{date_str}|{amount_str}|{employee_id}|{transaction_type}"`. -/
def fingerprint_string (transaction_data : TransactionData) : String :=
  dateComponent transaction_data.date ++ "|" ++
    amountComponent transaction_data.amount ++ "|" ++
    pyOrEmpty transaction_data.employee_id ++ "|" ++
    pyOrEmpty transaction_data.transaction_type

/-- Content fingerprint for a transaction (`calculate_transaction_fingerprint`,
lines 61-92), parameterized by the SHA-256 hex-digest primitive
(`hashlib.sha256(...).hexdigest()`), which is external to the repository. -/
def calculate_transaction_fingerprint (sha256_hex : String → String)
    (transaction_data : TransactionData) : String :=
  sha256_hex (fingerprint_string transaction_data)

end DeduplicationService

/-! ## splitting_service.py -/

namespace SplittingService

/-- Pages of a source PDF are opaque contents; a numeric tag suffices. -/
abbrev Page := ℕ

/-- Export directory constant (splitting_service.py line 16). -/
def EXPORT_DIR : String := "exports"

/-- Extract specific pages from a PDF (`extract_pages`, lines 22-60).  The
`PdfReader` opened from `pdf_path` is modelled by the page list the path
denotes; page numbers are 1-indexed Python ints (`ℤ`); a raised
`SplittingError` is the `Except.error` message. -/
def extract_pages (reader_pages : List Page) : List ℤ → Except String (List Page)
  | [] => Except.ok []
  | page_num :: rest =>
    let page_index := page_num - 1
    if page_index < 0 ∨ page_index ≥ (reader_pages.length : ℤ) then
      Except.error ("Page " ++ toString page_num ++ " out of range for PDF with " ++
        toString reader_pages.length ++ " pages")
    else
      (extract_pages reader_pages rest).map
        (fun ps => reader_pages.getD page_index.toNat 0 :: ps)

/-- Combine writers into one document (`combine_pdfs`, lines 62-90); the file
written to `output_path` is modelled by the returned page list. -/
def combine_pdfs (writers : List (List Page)) : List Page :=
  writers.flatMap (fun w => w)

/-- Create a combined PDF for one match (`create_match_pdf`, lines 92-141).
The wall clock read for the filename is the `timestamp` parameter.  Returns
the `(output_path, total_pages)` pair of the Python function. -/
def create_match_pdf (car_pdf_path : List Page) (car_page_numbers : List ℤ)
    (receipt_pdf_path : List Page) (receipt_page_numbers : List ℤ)
    (match_id : String) (timestamp : String) : Except String (String × ℕ) :=
  match extract_pages car_pdf_path car_page_numbers with
  | .error e => .error e
  | .ok car_writer =>
    match extract_pages receipt_pdf_path receipt_page_numbers with
    | .error e => .error e
    | .ok receipt_writer =>
      let filename := "match_" ++ match_id ++ "_" ++ timestamp ++ ".pdf"
      let output_path := EXPORT_DIR ++ "/" ++ filename
      let _combined := combine_pdfs [car_writer, receipt_writer]
      .ok (output_path, car_page_numbers.length + receipt_page_numbers.length)

/-- One entry of the `matches_data` argument of `create_batch_pdfs` (lines
150-158); the two `*_pdf_path` keys are modelled by the documents the paths
denote. -/
structure MatchData where
  match_id : String
  car_pdf_path : List Page
  car_pages : List ℤ
  receipt_pdf_path : List Page
  receipt_pages : List ℤ
deriving DecidableEq, Repr

/-- Create PDFs for multiple matches (`create_batch_pdfs`, lines 143-185): a
`SplittingError` on one match is caught, logged and skipped; every other
match still contributes its `(match_id, output_path, total_pages)` result. -/
def create_batch_pdfs (timestamp : String) : List MatchData → List (String × String × ℕ)
  | [] => []
  | match_data :: rest =>
    match create_match_pdf match_data.car_pdf_path match_data.car_pages
        match_data.receipt_pdf_path match_data.receipt_pages
        match_data.match_id timestamp with
    | .ok (output_path, total_pages) =>
      (match_data.match_id, output_path, total_pages) :: create_batch_pdfs timestamp rest
    | .error _ => create_batch_pdfs timestamp rest

end SplittingService

/-! ## A small interpreter for the Python `re` patterns of the extractor

The extraction service only uses character classes, literals, sequencing,
alternation, counted repetition of a single character class (greedy or lazy)
and numbered capture groups.  A backtracking interpreter that enumerates
match candidates in Python's preference order (leftmost alternative first,
lazy shortest-first, greedy longest-first) is exact for these constructs. -/

namespace PyRe

/-- Regex abstract syntax (restricted as described above).  In `rep`, the
fields are the character class, the minimum count, the optional maximum
count, and whether the quantifier is lazy. -/
inductive RE where
  | eps : RE
  | cls : (Char → Bool) → RE
  | seq : RE → RE → RE
  | alt : RE → RE → RE
  | rep : (Char → Bool) → ℕ → Option ℕ → Bool → RE
  | grp : ℕ → RE → RE

/-- Captures recorded by a match: group number paired with its text. -/
abbrev Caps := List (ℕ × List Char)

/-- Length of the maximal prefix of the list whose characters satisfy `p`. -/
def runLen (p : Char → Bool) : List Char → ℕ
  | [] => 0
  | c :: cs => if p c then runLen p cs + 1 else 0

/-- Candidate repetition counts between `lo` and `min hi maxRun`, in
preference order: ascending for a lazy quantifier, descending for greedy. -/
def repCounts (lo : ℕ) (hi : Option ℕ) (lazyQ : Bool) (maxRun : ℕ) : List ℕ :=
  let hiV := match hi with | some h => min h maxRun | none => maxRun
  if hiV < lo then []
  else
    let asc := (List.range (hiV - lo + 1)).map (fun k => k + lo)
    if lazyQ then asc else asc.reverse

/-- All ways a regex can match a prefix of `s`, as (consumed, rest, captures)
triples in backtracking preference order. -/
def matchRE : RE → List Char → List (List Char × List Char × Caps)
  | .eps, s => [([], s, [])]
  | .cls _, [] => []
  | .cls p, c :: cs => if p c then [([c], cs, [])] else []
  | .seq a b, s =>
    (matchRE a s).flatMap (fun t =>
      (matchRE b t.2.1).map (fun t2 => (t.1 ++ t2.1, t2.2.1, t.2.2 ++ t2.2.2)))
  | .alt a b, s => matchRE a s ++ matchRE b s
  | .rep p lo hi lazyQ, s =>
    (repCounts lo hi lazyQ (runLen p s)).map (fun k => (s.take k, s.drop k, []))
  | .grp n r, s =>
    (matchRE r s).map (fun t => (t.1, t.2.1, (n, t.1) :: t.2.2))

/-- Text of capture group `n` (empty if the group is absent). -/
def capGet (caps : Caps) (n : ℕ) : List Char :=
  match caps.find? (fun pr => pr.1 = n) with
  | some pr => pr.2
  | none => []

/-- Leftmost match: try each start position in turn, and at the first
position where the pattern matches take the preferred alternative.  Returns
(start index, consumed, rest, captures). -/
def searchFrom (r : RE) (i : ℕ) : List Char → Option (ℕ × List Char × List Char × Caps)
  | [] =>
    match matchRE r [] with
    | res :: _ => some (i, res)
    | [] => none
  | c :: cs =>
    match matchRE r (c :: cs) with
    | res :: _ => some (i, res)
    | [] => searchFrom r (i + 1) cs

/-- Python `re.search`. -/
def search (r : RE) (s : List Char) : Option (ℕ × List Char × List Char × Caps) :=
  searchFrom r 0 s

/-- Python `re.findall` for a pattern with exactly one group: group-1 texts
of the non-overlapping leftmost matches.  The fuel argument bounds the number
of matches (a zero-width match advances by one character; the extractor's
patterns never match the empty string). -/
def findallGo (r : RE) : ℕ → List Char → List (List Char)
  | 0, _ => []
  | fuel + 1, s =>
    match search r s with
    | none => []
    | some (_, consumed, rest, caps) =>
      if consumed.isEmpty then capGet caps 1 :: findallGo r fuel (rest.drop 1)
      else capGet caps 1 :: findallGo r fuel rest

/-- Python `re.findall` (one capture group). -/
def findall (r : RE) (s : List Char) : List (List Char) :=
  findallGo r (s.length + 1) s

/-- Python `re.split` for a pattern without groups: the segments between the
non-overlapping leftmost matches. -/
def splitGo (r : RE) : ℕ → List Char → List (List Char)
  | 0, s => [s]
  | fuel + 1, s =>
    match search r s with
    | none => [s]
    | some (i, consumed, rest, _) =>
      if consumed.isEmpty then [s]
      else s.take i :: splitGo r fuel rest

/-- Python `re.split` (no groups in the pattern). -/
def splitRE (r : RE) (s : List Char) : List (List Char) :=
  splitGo r (s.length + 1) s

/-- Character range test. -/
def between (lo hi c : Char) : Bool := decide (lo ≤ c) && decide (c ≤ hi)

/-- Python `\s` on ASCII text: space, tab, newline, carriage return,
vertical tab, form feed. -/
def isSpaceC (c : Char) : Bool :=
  c == ' ' || c == '\t' || c == '\n' || c == '\r' || c.toNat == 11 || c.toNat == 12

/-- Literal string pattern. -/
def lit (s : String) : RE :=
  (s.toList.map (fun c => RE.cls (fun x => x == c))).foldr RE.seq RE.eps

/-- Literal string pattern under `re.IGNORECASE`. -/
def litCI (s : String) : RE :=
  (s.toList.map (fun c => RE.cls (fun x => x.toLower == c.toLower))).foldr RE.seq RE.eps

/-- Sequence of patterns. -/
def seqAll (rs : List RE) : RE := rs.foldr RE.seq RE.eps

end PyRe

/-! ## extraction_service.py -/

namespace ExtractionService

open PyRe

/-- Extracted transaction record (`ExtractedTransaction`,
extraction_service.py lines 9-22). -/
structure ExtractedTransaction where
  transaction_type : String
  date : Option PyDate
  amount : Option ℚ
  employee_id : Option String
  employee_name : Option String
  merchant : Option String
  card_number : Option String
  receipt_id : Option String
  page_number : ℕ
  raw_text : String
  extraction_confidence : ℚ
deriving DecidableEq, Repr, Inhabited

/-- The `current_employee_info` dict built at lines 86-90 of the CAR page
loop.  When present it always carries the three keys. -/
structure EmployeeInfo where
  employee_id : String
  employee_name : Option String
  card_number : String
deriving DecidableEq, Repr

/-- Two mandatory digits. -/
def digit2 : RE := .rep Char.isDigit 2 (some 2) false

/-- Four mandatory digits. -/
def digit4 : RE := .rep Char.isDigit 4 (some 4) false

/-- `CAR_DATE_PATTERN = r'(\d{2}/\d{2}/\d{4})'` (line 42). -/
def CAR_DATE_PATTERN : RE := .grp 1 (seqAll [digit2, lit "/", digit2, lit "/", digit4])

/-- The same date shape without a group, as passed to `re.split` at line 171. -/
def CAR_DATE_SPLIT : RE := seqAll [digit2, lit "/", digit2, lit "/", digit4]

/-- `[0-9,]` class. -/
def isDigitComma (c : Char) : Bool := Char.isDigit c || c == ','

/-- `CAR_AMOUNT_PATTERN = r'\$([0-9,]+\.\d{2})'` (line 43). -/
def CAR_AMOUNT_PATTERN : RE :=
  .seq (lit "$") (.grp 1 (seqAll [.rep isDigitComma 1 none false, lit ".", digit2]))

/-- `[A-Z]` class. -/
def isUpperAZ (c : Char) : Bool := between 'A' 'Z' c

/-- Class of `.` (any character but newline). -/
def isDotAny (c : Char) : Bool := c != '\n'

/-- `\s+`. -/
def spacePlus : RE := .rep isSpaceC 1 none false

/-- The merchant search pattern
`r'[A-Z]\s+\d+\s+(.+?)(?:\s+[A-Z]{2}\s+|\s+\$)'` (line 176). -/
def CAR_MERCHANT_SEARCH : RE :=
  seqAll [.cls isUpperAZ, spacePlus, .rep Char.isDigit 1 none false, spacePlus,
    .grp 1 (.rep isDotAny 1 none true),
    .alt (seqAll [spacePlus, .rep isUpperAZ 2 (some 2) false, spacePlus])
      (.seq spacePlus (lit "$"))]

/-- CPython strptime month field `(1[0-2]|0[1-9]|[1-9])`, as group `g`. -/
def monthRE (g : ℕ) : RE :=
  .grp g (.alt (.seq (lit "1") (.cls (between '0' '2')))
    (.alt (.seq (lit "0") (.cls (between '1' '9'))) (.cls (between '1' '9'))))

/-- CPython strptime day field `(3[01]|[12]\d|0[1-9]|[1-9])`, as group `g`. -/
def dayRE (g : ℕ) : RE :=
  .grp g (.alt (.seq (lit "3") (.cls (between '0' '1')))
    (.alt (.seq (.cls (between '1' '2')) (.cls Char.isDigit))
      (.alt (.seq (lit "0") (.cls (between '1' '9'))) (.cls (between '1' '9')))))

/-- CPython strptime `%Y` field: four digits, as group `g`. -/
def year4RE (g : ℕ) : RE := .grp g (.rep Char.isDigit 4 (some 4) false)

/-- CPython strptime `%y` field: two digits, as group `g`. -/
def year2RE (g : ℕ) : RE := .grp g (.rep Char.isDigit 2 (some 2) false)

/-- Numeric value of a digit string. -/
def digitsVal (cs : List Char) : ℕ := cs.foldl (fun acc c => acc * 10 + (c.toNat - 48)) 0

/-- Length of a Gregorian month, as `datetime.date` validates it. -/
def daysInMonth (y m : ℕ) : ℕ :=
  if m = 2 then (if y % 4 = 0 ∧ (y % 100 ≠ 0 ∨ y % 400 = 0) then 29 else 28)
  else if m = 4 ∨ m = 6 ∨ m = 9 ∨ m = 11 then 30
  else 31

/-- `datetime.date(y, m, d)` construction; `none` models the `ValueError`
raised on an invalid calendar date or out-of-range year. -/
def mkPyDate (y m d : ℕ) : Option PyDate :=
  if 1 ≤ y ∧ y ≤ 9999 ∧ 1 ≤ m ∧ m ≤ 12 ∧ 1 ≤ d ∧ d ≤ daysInMonth y m then
    some { year := y, month := m, day := d }
  else none

/-- `datetime.strptime(s, fmt).date()` for the four slash-separated formats
the extractor uses (`%m/%d/%Y`, `%m/%d/%y`, `%d/%m/%Y`, `%d/%m/%y`).
CPython compiles the format to a regex, takes the preferred prefix match,
rejects leftover characters ("unconverted data remains"), maps a two-digit
year through the 1969-2068 window, and validates the calendar date. -/
def strptimeSlashDate (monthFirst year4 : Bool) (s : List Char) : Option PyDate :=
  let fieldA := if monthFirst then monthRE 1 else dayRE 1
  let fieldB := if monthFirst then dayRE 2 else monthRE 2
  let fieldY := if year4 then year4RE 3 else year2RE 3
  match matchRE (seqAll [fieldA, lit "/", fieldB, lit "/", fieldY]) s with
  | [] => none
  | t :: _ =>
    if t.2.1 ≠ [] then none
    else
      let a := digitsVal (capGet t.2.2 1)
      let b := digitsVal (capGet t.2.2 2)
      let yraw := digitsVal (capGet t.2.2 3)
      let y := if year4 then yraw else (if yraw ≤ 68 then 2000 + yraw else 1900 + yraw)
      mkPyDate y (if monthFirst then a else b) (if monthFirst then b else a)

/-- Python `str.strip()` on ASCII text. -/
def trimChars (cs : List Char) : List Char :=
  ((cs.dropWhile isSpaceC).reverse.dropWhile isSpaceC).reverse

/-- Helper for `re.sub(r'\s+', ' ', s)`; the Bool records whether the
previous character was whitespace. -/
def collapseWsGo : Bool → List Char → List Char
  | _, [] => []
  | prevWs, c :: cs =>
    if isSpaceC c then
      if prevWs then collapseWsGo true cs else ' ' :: collapseWsGo true cs
    else c :: collapseWsGo false cs

/-- Python `re.sub(r'\s+', ' ', s)` (line 179): each whitespace run becomes a
single space. -/
def collapseWs (cs : List Char) : List Char := collapseWsGo false cs

/-- Python `needle in hay` on strings. -/
def containsSub (needle : List Char) : List Char → Bool
  | [] => needle.isEmpty
  | c :: cs => needle.isPrefixOf (c :: cs) || containsSub needle cs

/-- Python `str.isdigit()` on ASCII text. -/
def pyIsdigit (cs : List Char) : Bool := !cs.isEmpty && cs.all Char.isDigit

/-- Python `float()` on the strings produced by the amount patterns (digits
and one dot, commas already removed before the call). -/
def pyFloat (cs : List Char) : Option ℚ :=
  match cs.splitOn '.' with
  | [intPart, fracPart] =>
    if (intPart.all Char.isDigit && fracPart.all Char.isDigit) &&
        (!intPart.isEmpty || !fracPart.isEmpty) then
      some ((digitsVal intPart : ℚ) + (digitsVal fracPart : ℚ) / (10 : ℚ) ^ fracPart.length)
    else none
  | _ => none

/-- Parse a single CAR transaction line (`_parse_car_line`, lines 132-205). -/
def _parse_car_line (line : String) (page_num : ℕ) (employee_info : Option EmployeeInfo) :
    Option ExtractedTransaction :=
  let cs := line.toList
  let date_matches := findall CAR_DATE_PATTERN cs
  if date_matches.isEmpty then none
  else
    let date_str := date_matches.headD []
    let transaction_date := strptimeSlashDate true true date_str
    let amount_matches := findall CAR_AMOUNT_PATTERN cs
    let amount : Option ℚ :=
      match amount_matches.getLast? with
      | some amount_str => pyFloat (amount_str.filter (fun c => c != ','))
      | none => none
    let parts := splitRE CAR_DATE_SPLIT cs
    let merchant : Option String :=
      if 3 ≤ parts.length then
        let merchant_section := trimChars (parts.getD 2 [])
        match search CAR_MERCHANT_SEARCH merchant_section with
        | some t =>
          some (String.mk ((collapseWs (trimChars (capGet t.2.2.2 1))).take 255))
        | none => none
      else none
    let confidence : ℚ :=
      (if transaction_date.isSome then 3/10 else 0) +
      (if pyTruthyFloat amount then 3/10 else 0) +
      (if pyTruthyStr merchant then 2/10 else 0) +
      (if employee_info.isSome then 2/10 else 0)
    some { transaction_type := "car"
           date := transaction_date
           amount := amount
           employee_id := employee_info.map (fun e => e.employee_id)
           employee_name := employee_info.bind (fun e => e.employee_name)
           merchant := merchant
           card_number := employee_info.map (fun e => e.card_number)
           receipt_id := none
           page_number := page_num
           raw_text := line
           extraction_confidence := confidence }

/-- `RECEIPT_DATE_PATTERN = r'(\d{1,2}/\d{1,2}/\d{2,4})'` (line 47). -/
def RECEIPT_DATE_PATTERN : RE :=
  .grp 1 (seqAll [.rep Char.isDigit 1 (some 2) false, lit "/",
    .rep Char.isDigit 1 (some 2) false, lit "/", .rep Char.isDigit 2 (some 4) false])

/-- `[\s:]` class. -/
def isSpaceColon (c : Char) : Bool := isSpaceC c || c == ':'

/-- `[\s,]` class. -/
def isSpaceComma (c : Char) : Bool := isSpaceC c || c == ','

/-- `[A-Z\s,]` class under `re.IGNORECASE`. -/
def isNameChar (c : Char) : Bool :=
  isUpperAZ c || between 'a' 'z' c || isSpaceC c || c == ','

/-- `RECEIPT_EMPLOYEE_PATTERN =
r'(?:Employee|EE|ID)[\s:]*([A-Z\s,]+?)[\s,]+(\d{4,6})'` (line 49), searched
with `re.IGNORECASE`. -/
def RECEIPT_EMPLOYEE_PATTERN : RE :=
  seqAll [.alt (litCI "Employee") (.alt (litCI "EE") (litCI "ID")),
    .rep isSpaceColon 0 none false,
    .grp 1 (.rep isNameChar 1 none true),
    .rep isSpaceComma 1 none false,
    .grp 2 (.rep Char.isDigit 4 (some 6) false)]

/-- The amount shape `([0-9,]+\.\d{2})` as group 1. -/
def amountGroup : RE := .grp 1 (seqAll [.rep isDigitComma 1 none false, lit ".", digit2])

/-- First total pattern
`r'(?:Total|TOTAL|Amount|AMOUNT)[\s:]*\$?\s*([0-9,]+\.\d{2})'` (line 267),
searched with `re.IGNORECASE`. -/
def TOTAL_PATTERN_1 : RE :=
  seqAll [.alt (litCI "Total") (.alt (litCI "TOTAL") (.alt (litCI "Amount") (litCI "AMOUNT"))),
    .rep isSpaceColon 0 none false,
    .rep (fun c => c == '$') 0 (some 1) false,
    .rep isSpaceC 0 none false,
    amountGroup]

/-- Second total pattern `r'\$\s*([0-9,]+\.\d{2})\s*(?:Total|TOTAL)'`
(line 268), searched with `re.IGNORECASE`. -/
def TOTAL_PATTERN_2 : RE :=
  seqAll [lit "$", .rep isSpaceC 0 none false, amountGroup,
    .rep isSpaceC 0 none false, .alt (litCI "Total") (litCI "TOTAL")]

/-- Header keywords that disqualify a merchant line (line 288). -/
def headerWords : List String := ["RECEIPT", "INVOICE", "DATE", "EMPLOYEE", "TOTAL"]

/-- The merchant scan over the first five lines (lines 282-290). -/
def findMerchantLine : List (List Char) → Option (List Char)
  | [] => none
  | l :: rest =>
    let line := trimChars l
    if 3 < line.length && !pyIsdigit line &&
        !(headerWords.any (fun w => containsSub w.toList (line.map Char.toUpper))) then
      some (line.take 255)
    else findMerchantLine rest

/-- The date-format trial order of lines 256-261: `%m/%d/%Y`, `%m/%d/%y`,
`%d/%m/%Y`, `%d/%m/%y`, first success wins. -/
def tryDateFormats (date_str : List Char) : Option PyDate :=
  match strptimeSlashDate true true date_str with
  | some d => some d
  | none =>
    match strptimeSlashDate true false date_str with
    | some d => some d
    | none =>
      match strptimeSlashDate false true date_str with
      | some d => some d
      | none => strptimeSlashDate false false date_str

/-- Parse a single receipt page (`_parse_receipt_page`, lines 239-319). -/
def _parse_receipt_page (text : String) (page_num : ℕ) : Option ExtractedTransaction :=
  let cs := text.toList
  let employee := search RECEIPT_EMPLOYEE_PATTERN cs
  let employee_name : Option String :=
    employee.map (fun t => String.mk (trimChars (capGet t.2.2.2 1)))
  let employee_id : Option String :=
    employee.map (fun t => String.mk (trimChars (capGet t.2.2.2 2)))
  let transaction_date : Option PyDate :=
    match search RECEIPT_DATE_PATTERN cs with
    | some t => tryDateFormats (capGet t.2.2.2 1)
    | none => none
  let amount : Option ℚ :=
    match (search TOTAL_PATTERN_1 cs).bind
        (fun t => pyFloat ((capGet t.2.2.2 1).filter (fun c => c != ','))) with
    | some v => some v
    | none =>
      (search TOTAL_PATTERN_2 cs).bind
        (fun t => pyFloat ((capGet t.2.2.2 1).filter (fun c => c != ',')))
  let merchant : Option String :=
    (findMerchantLine ((cs.splitOn '\n').take 5)).map String.mk
  let confidence : ℚ :=
    (if transaction_date.isSome then 25/100 else 0) +
    (if pyTruthyFloat amount then 35/100 else 0) +
    (if pyTruthyStr employee_id then 25/100 else 0) +
    (if pyTruthyStr merchant then 15/100 else 0)
  if transaction_date.isSome || pyTruthyFloat amount then
    some { transaction_type := "receipt"
           date := transaction_date
           amount := amount
           employee_id := employee_id
           employee_name := employee_name
           merchant := merchant
           card_number := none
           receipt_id := none
           page_number := page_num
           raw_text := String.mk (cs.take 500)
           extraction_confidence := confidence }
  else none

end ExtractionService

/-! ## Theorems -/

/-- Bool disjunction elimination. -/
theorem bool_or_elim {a b : Bool} (h : (a || b) = true) : a = true ∨ b = true := by
  cases a
  · right; simpa using h
  · left; rfl

/-- A truthy optional float is present. -/
theorem pyTruthyFloat_isSome {a : Option ℚ} (h : pyTruthyFloat a = true) : a.isSome := by
  cases a with
  | none => simp [pyTruthyFloat] at h
  | some q => rfl

/-- Soundness of the greedy selection loop: every selected match avoids the
already-consumed id lists, and the selected matches pairwise disagree on both
id fields. -/
theorem greedy_filter_sound (l : List MatchingService.MatchScore) :
    ∀ cs rs : List (Option String),
      (∀ x ∈ MatchingService.greedy_filter l cs rs,
        x.car_transaction_id ∉ cs ∧ x.receipt_transaction_id ∉ rs) ∧
      List.Pairwise
        (fun m1 m2 => m1.car_transaction_id ≠ m2.car_transaction_id ∧
          m1.receipt_transaction_id ≠ m2.receipt_transaction_id)
        (MatchingService.greedy_filter l cs rs) := by
  induction l with
  | nil => intro cs rs; simp [MatchingService.greedy_filter]
  | cons m rest ih =>
    intro cs rs
    by_cases h : m.car_transaction_id ∈ cs ∨ m.receipt_transaction_id ∈ rs
    · rw [MatchingService.greedy_filter, if_pos h]
      exact ih cs rs
    · obtain ⟨hc, hr⟩ := not_or.mp h
      obtain ⟨ih1, ih2⟩ := ih (m.car_transaction_id :: cs) (m.receipt_transaction_id :: rs)
      rw [MatchingService.greedy_filter, if_neg h]
      constructor
      · intro x hx
        rcases List.mem_cons.mp hx with hx | hx
        · subst hx; exact ⟨hc, hr⟩
        · have hx2 := ih1 x hx
          exact ⟨fun hmem => hx2.1 (List.mem_cons_of_mem _ hmem),
            fun hmem => hx2.2 (List.mem_cons_of_mem _ hmem)⟩
      · refine List.Pairwise.cons ?_ ih2
        intro b hb
        have hb2 := ih1 b hb
        constructor
        · intro heq; exact hb2.1 (by rw [← heq]; exact List.mem_cons_self _ _)
        · intro heq; exact hb2.2 (by rw [← heq]; exact List.mem_cons_self _ _)

/-- C1: in any run of `find_best_matches`, no record identifier appears in
more than one returned `MatchScore`: the returned candidates pairwise differ
in `car_transaction_id` and pairwise differ in `receipt_transaction_id`. -/
theorem find_best_matches_no_id_reused (fz : MatchingService.Fuzz)
    (car_transactions receipt_transactions : List MatchingService.TransactionDict)
    (min_confidence : Option ℚ) :
    List.Pairwise
      (fun m1 m2 => m1.car_transaction_id ≠ m2.car_transaction_id ∧
        m1.receipt_transaction_id ≠ m2.receipt_transaction_id)
      (MatchingService.find_best_matches fz car_transactions receipt_transactions
        min_confidence) := by
  unfold MatchingService.find_best_matches
  exact (greedy_filter_sound _ [] []).2

/-- C5: the overall confidence returned by `calculate_match_score` is the
weighted sum 0.30·date + 0.30·amount + 0.25·employee + 0.15·merchant of the
four sub-scores, and the four weights sum to exactly 1. -/
theorem calculate_match_score_weighted_sum (fz : MatchingService.Fuzz)
    (car_transaction receipt_transaction : MatchingService.TransactionDict) :
    (MatchingService.calculate_match_score fz car_transaction
        receipt_transaction).confidence_score =
      30/100 * MatchingService.calculate_date_score car_transaction.date
          receipt_transaction.date +
      30/100 * MatchingService.calculate_amount_score car_transaction.amount
          receipt_transaction.amount +
      25/100 * MatchingService.calculate_employee_score car_transaction.employee_id
          receipt_transaction.employee_id +
      15/100 * MatchingService.calculate_merchant_score fz car_transaction.merchant
          receipt_transaction.merchant ∧
    MatchingService.DATE_WEIGHT + MatchingService.AMOUNT_WEIGHT +
      MatchingService.EMPLOYEE_WEIGHT + MatchingService.MERCHANT_WEIGHT = 1 := by
  constructor
  · simp only [MatchingService.calculate_match_score, MatchingService.overall_confidence,
      MatchingService.DATE_WEIGHT, MatchingService.AMOUNT_WEIGHT,
      MatchingService.EMPLOYEE_WEIGHT, MatchingService.MERCHANT_WEIGHT]
    ring
  · norm_num [MatchingService.DATE_WEIGHT, MatchingService.AMOUNT_WEIGHT,
      MatchingService.EMPLOYEE_WEIGHT, MatchingService.MERCHANT_WEIGHT]

/-- C6: date sub-score boundary behaviour: 0 when either date is missing,
1.0 at day difference 0, 0.5 at day difference exactly the 1-day tolerance,
0 beyond the tolerance. -/
theorem calculate_date_score_boundary (d : Option ℤ) (c r : ℤ) :
    MatchingService.calculate_date_score none d = 0 ∧
    MatchingService.calculate_date_score d none = 0 ∧
    (|c - r| = 0 → MatchingService.calculate_date_score (some c) (some r) = 1) ∧
    (|c - r| = 1 → MatchingService.calculate_date_score (some c) (some r) = 1/2) ∧
    (1 < |c - r| → MatchingService.calculate_date_score (some c) (some r) = 0) := by
  refine ⟨?_, ?_, ?_, ?_, ?_⟩
  · cases d <;> rfl
  · cases d <;> rfl
  · intro h
    simp [MatchingService.calculate_date_score, h]
  · intro h
    simp [MatchingService.calculate_date_score, h, MatchingService.DATE_TOLERANCE_DAYS]
    norm_num
  · intro h
    simp only [MatchingService.calculate_date_score, MatchingService.DATE_TOLERANCE_DAYS]
    set k := |c - r| with hk
    have h0 : ¬ k = 0 := by omega
    have h1 : ¬ k ≤ 1 := by omega
    simp [h0, h1]

/-- C6 witness: the boundary theorem evaluated at concrete dates at day
difference 1, 0 and 7. -/
theorem calculate_date_score_boundary_witness :
    MatchingService.calculate_date_score (some 5) (some 4) = 1/2 ∧
    MatchingService.calculate_date_score (some 3) (some 3) = 1 ∧
    MatchingService.calculate_date_score (some 9) (some 2) = 0 :=
  ⟨(calculate_date_score_boundary none 5 4).2.2.2.1 (by decide),
   (calculate_date_score_boundary none 3 3).2.2.1 (by decide),
   (calculate_date_score_boundary none 9 2).2.2.2.2 (by decide)⟩

/-- C8: the weighted overall confidence of `calculate_match_score` is
monotone in each sub-score separately: raising any one of the four
sub-scores (date, amount, employee, merchant) while holding the other three
fixed never decreases the overall confidence. -/
theorem overall_confidence_monotone (x y d a e m : ℚ) (h : x ≤ y) :
    MatchingService.overall_confidence x a e m ≤
      MatchingService.overall_confidence y a e m ∧
    MatchingService.overall_confidence d x e m ≤
      MatchingService.overall_confidence d y e m ∧
    MatchingService.overall_confidence d a x m ≤
      MatchingService.overall_confidence d a y m ∧
    MatchingService.overall_confidence d a e x ≤
      MatchingService.overall_confidence d a e y := by
  have k30 : x * (30/100 : ℚ) ≤ y * (30/100) := mul_le_mul_of_nonneg_right h (by norm_num)
  have k25 : x * (25/100 : ℚ) ≤ y * (25/100) := mul_le_mul_of_nonneg_right h (by norm_num)
  have k15 : x * (15/100 : ℚ) ≤ y * (15/100) := mul_le_mul_of_nonneg_right h (by norm_num)
  unfold MatchingService.overall_confidence MatchingService.DATE_WEIGHT
    MatchingService.AMOUNT_WEIGHT MatchingService.EMPLOYEE_WEIGHT
    MatchingService.MERCHANT_WEIGHT
  exact ⟨by linarith, by linarith, by linarith, by linarith⟩

/-- C8 witness: monotonicity instantiated at concrete sub-scores 0 ≤ 1. -/
theorem overall_confidence_monotone_witness :
    MatchingService.overall_confidence 0 0 0 0 ≤
      MatchingService.overall_confidence 1 0 0 0 ∧
    MatchingService.overall_confidence 0 0 0 0 ≤
      MatchingService.overall_confidence 0 1 0 0 ∧
    MatchingService.overall_confidence 0 0 0 0 ≤
      MatchingService.overall_confidence 0 0 1 0 ∧
    MatchingService.overall_confidence 0 0 0 0 ≤
      MatchingService.overall_confidence 0 0 0 1 :=
  overall_confidence_monotone 0 1 0 0 0 0 (by norm_num)

/-- C9: an amount of exactly 0.0 is treated as missing by the amount
sub-score, because the presence check uses Python truthiness: pairing a zero
amount with anything (including another zero) scores 0. -/
theorem calculate_amount_score_zero_as_missing (x : Option ℚ) :
    MatchingService.calculate_amount_score (some 0) x = 0 ∧
    MatchingService.calculate_amount_score x (some 0) = 0 ∧
    MatchingService.calculate_amount_score (some 0) (some 0) = 0 := by
  refine ⟨?_, ?_, ?_⟩ <;>
    cases x <;>
      simp [MatchingService.calculate_amount_score, pyTruthyFloat]

/-- C10: the merchant sub-score never lies strictly between 0 and 0.8: when
each `rapidfuzz` primitive yields scores in [0, 100], the result is either 0
(missing merchant or best fuzzy score below the threshold 80) or a value in
[0.80, 1]. -/
theorem calculate_merchant_score_gap (fz : MatchingService.Fuzz)
    (car_merchant receipt_merchant : Option String)
    (h1 : ∀ s t, 0 ≤ fz.ratio s t ∧ fz.ratio s t ≤ 100)
    (h2 : ∀ s t, 0 ≤ fz.part_ratio s t ∧ fz.part_ratio s t ≤ 100)
    (h3 : ∀ s t, 0 ≤ fz.token_sort_ratio s t ∧ fz.token_sort_ratio s t ≤ 100) :
    MatchingService.calculate_merchant_score fz car_merchant receipt_merchant = 0 ∨
    (80/100 ≤ MatchingService.calculate_merchant_score fz car_merchant receipt_merchant ∧
      MatchingService.calculate_merchant_score fz car_merchant receipt_merchant ≤ 1) := by
  by_cases hg : (!pyTruthyStr car_merchant || !pyTruthyStr receipt_merchant) = true
  · exact Or.inl (by simp [MatchingService.calculate_merchant_score, hg])
  · by_cases hlt :
      max (fz.ratio (car_merchant.getD "").trim.toUpper (receipt_merchant.getD "").trim.toUpper)
        (max
          (fz.part_ratio (car_merchant.getD "").trim.toUpper
            (receipt_merchant.getD "").trim.toUpper)
          (fz.token_sort_ratio (car_merchant.getD "").trim.toUpper
            (receipt_merchant.getD "").trim.toUpper)) <
        MatchingService.FUZZY_MATCH_THRESHOLD
    · exact Or.inl (by simp [MatchingService.calculate_merchant_score, hg, hlt])
    · have heq : MatchingService.calculate_merchant_score fz car_merchant receipt_merchant =
          max (fz.ratio (car_merchant.getD "").trim.toUpper
              (receipt_merchant.getD "").trim.toUpper)
            (max
              (fz.part_ratio (car_merchant.getD "").trim.toUpper
                (receipt_merchant.getD "").trim.toUpper)
              (fz.token_sort_ratio (car_merchant.getD "").trim.toUpper
                (receipt_merchant.getD "").trim.toUpper)) / 100 := by
        simp [MatchingService.calculate_merchant_score, hg, hlt]
      have h80 := le_of_not_lt hlt
      rw [MatchingService.FUZZY_MATCH_THRESHOLD] at h80
      have hM100 :
          max (fz.ratio (car_merchant.getD "").trim.toUpper
              (receipt_merchant.getD "").trim.toUpper)
            (max
              (fz.part_ratio (car_merchant.getD "").trim.toUpper
                (receipt_merchant.getD "").trim.toUpper)
              (fz.token_sort_ratio (car_merchant.getD "").trim.toUpper
                (receipt_merchant.getD "").trim.toUpper)) ≤ 100 :=
        max_le (h1 _ _).2 (max_le (h2 _ _).2 (h3 _ _).2)
      exact Or.inr ⟨by rw [heq]; linarith, by rw [heq]; linarith⟩

/-- C10 witness: the gap theorem applied to constant similarity scores 90 on
two concrete merchant names. -/
theorem calculate_merchant_score_gap_witness :
    MatchingService.calculate_merchant_score
        ⟨fun _ _ => 90, fun _ _ => 90, fun _ _ => 90⟩ (some "ACME") (some "ACNE") = 0 ∨
    (80/100 ≤ MatchingService.calculate_merchant_score
        ⟨fun _ _ => 90, fun _ _ => 90, fun _ _ => 90⟩ (some "ACME") (some "ACNE") ∧
      MatchingService.calculate_merchant_score
        ⟨fun _ _ => 90, fun _ _ => 90, fun _ _ => 90⟩ (some "ACME") (some "ACNE") ≤ 1) :=
  calculate_merchant_score_gap ⟨fun _ _ => 90, fun _ _ => 90, fun _ _ => 90⟩
    (some "ACME") (some "ACNE")
    (fun _ _ => ⟨by norm_num, by norm_num⟩)
    (fun _ _ => ⟨by norm_num, by norm_num⟩)
    (fun _ _ => ⟨by norm_num, by norm_num⟩)

/-- An ISO-formatted date string is never empty. -/
theorem isoformat_ne_empty (d : PyDate) : d.isoformat ≠ "" := by
  intro h
  have hlen := congrArg String.length h
  have hdash : ("-" : String).length = 1 := rfl
  simp [PyDate.isoformat, String.length_append] at hlen
  omega

/-- Rounding half-to-even is the identity on integers. -/
theorem roundHalfEven_intCast (n : ℤ) : DeduplicationService.roundHalfEven (n : ℚ) = n := by
  simp [DeduplicationService.roundHalfEven, Int.floor_intCast]

/-- Rounding half-to-even preserves nonnegativity. -/
theorem roundHalfEven_nonneg (x : ℚ) (hx : 0 ≤ x) :
    0 ≤ DeduplicationService.roundHalfEven x := by
  have hf : (0:ℤ) ≤ ⌊x⌋ := Int.floor_nonneg.mpr hx
  simp only [DeduplicationService.roundHalfEven]
  split_ifs <;> omega

/-- C3: the transaction fingerprint is a function of the normalized business
key only: agreeing normalized (date, amount, employee_id, transaction_type)
components give equal digests for any digest function; a date object and its
ISO string normalize identically; a (nonnegative) amount and its two-decimal
rounding normalize identically; changing only the merchant never changes the
digest; and the function is deterministic. -/
theorem fingerprint_business_key_only (sha256_hex : String → String)
    (t1 t2 : DeduplicationService.TransactionData) (d : PyDate) (q : ℚ) :
    (DeduplicationService.dateComponent t1.date = DeduplicationService.dateComponent t2.date →
      DeduplicationService.amountComponent t1.amount =
        DeduplicationService.amountComponent t2.amount →
      DeduplicationService.pyOrEmpty t1.employee_id =
        DeduplicationService.pyOrEmpty t2.employee_id →
      DeduplicationService.pyOrEmpty t1.transaction_type =
        DeduplicationService.pyOrEmpty t2.transaction_type →
      DeduplicationService.calculate_transaction_fingerprint sha256_hex t1 =
        DeduplicationService.calculate_transaction_fingerprint sha256_hex t2) ∧
    DeduplicationService.dateComponent (some (.pydate d)) =
      DeduplicationService.dateComponent (some (.str d.isoformat)) ∧
    (0 ≤ q → DeduplicationService.amountComponent (some q) =
      DeduplicationService.amountComponent
        (some ((DeduplicationService.roundHalfEven (q * 100) : ℚ) / 100))) ∧
    DeduplicationService.calculate_transaction_fingerprint sha256_hex
        { t1 with merchant := t2.merchant } =
      DeduplicationService.calculate_transaction_fingerprint sha256_hex t1 ∧
    DeduplicationService.calculate_transaction_fingerprint sha256_hex t1 =
      DeduplicationService.calculate_transaction_fingerprint sha256_hex t1 := by
  refine ⟨?_, ?_, ?_, rfl, rfl⟩
  · intro h1 h2 h3 h4
    simp only [DeduplicationService.calculate_transaction_fingerprint,
      DeduplicationService.fingerprint_string, h1, h2, h3, h4]
  · have hne := isoformat_ne_empty d
    simp [DeduplicationService.dateComponent, DeduplicationService.DateValue.pyTruthy, hne]
  · intro hq
    have habs : |q| = q := abs_of_nonneg hq
    have hc0 : (0:ℤ) ≤ DeduplicationService.roundHalfEven (q * 100) :=
      roundHalfEven_nonneg _ (by positivity)
    have hdiv0 : (0:ℚ) ≤ (DeduplicationService.roundHalfEven (q * 100) : ℚ) / 100 :=
      div_nonneg (by exact_mod_cast hc0) (by norm_num)
    simp only [DeduplicationService.amountComponent, DeduplicationService.formatAmount2]
    rw [habs, abs_of_nonneg hdiv0, div_mul_cancel₀ _ (by norm_num : (100:ℚ) ≠ 0),
      roundHalfEven_intCast]
    rw [if_neg (not_lt.mpr hq), if_neg (not_lt.mpr hdiv0)]

/-- C3 witness: equal digests for a record carrying a date object, an exact
amount and a merchant, and a record carrying the ISO date string, an amount
with extra decimal precision (100.004) and no merchant; plus the rounding
example 12.3456 at its hypothesis 0 ≤ 12.3456. -/
theorem fingerprint_business_key_only_witness :
    DeduplicationService.calculate_transaction_fingerprint id
        ⟨some (.pydate ⟨2025, 1, 15⟩), some 100, some "EMP001", some "car", some "ACME"⟩ =
      DeduplicationService.calculate_transaction_fingerprint id
        ⟨some (.str "2025-01-15"), some 100, some "EMP001", some "car", none⟩ ∧
    DeduplicationService.amountComponent (some (123456/10000 : ℚ)) =
      DeduplicationService.amountComponent
        (some ((DeduplicationService.roundHalfEven ((123456/10000 : ℚ) * 100) : ℚ) / 100)) :=
  ⟨(fingerprint_business_key_only id
      ⟨some (.pydate ⟨2025, 1, 15⟩), some 100, some "EMP001", some "car", some "ACME"⟩
      ⟨some (.str "2025-01-15"), some 100, some "EMP001", some "car", none⟩
      ⟨2025, 1, 15⟩ 0).1 (by decide) rfl rfl rfl,
   (fingerprint_business_key_only id
      ⟨some (.pydate ⟨2025, 1, 15⟩), some 100, some "EMP001", some "car", some "ACME"⟩
      ⟨some (.str "2025-01-15"), some 100, some "EMP001", some "car", none⟩
      ⟨2025, 1, 15⟩ (123456/10000)).2.2.1 (by norm_num)⟩

/-- Strings with equal character data are equal. -/
theorem string_data_eq {s t : String} (h : s.data = t.data) : s = t := by
  cases s; cases t; exact congrArg String.mk h

/-- C4 counterexample: two transaction dicts that differ in exactly the
`employee_id` field (`None` versus `""`) and agree on date, amount and
transaction_type nevertheless fingerprint identically (for any digest
function; shown here with the identity digest), because both normalize the
person identifier to the empty string. -/
theorem fingerprint_sensitivity_cex :
    DeduplicationService.calculate_transaction_fingerprint id
        ⟨none, none, none, some "car", none⟩ =
      DeduplicationService.calculate_transaction_fingerprint id
        ⟨none, none, some "", some "car", none⟩ ∧
    (⟨none, none, none, some "car", none⟩ :
        DeduplicationService.TransactionData).employee_id ≠
      (⟨none, none, some "", some "car", none⟩ :
        DeduplicationService.TransactionData).employee_id ∧
    (⟨none, none, none, some "car", none⟩ :
        DeduplicationService.TransactionData).date =
      (⟨none, none, some "", some "car", none⟩ :
        DeduplicationService.TransactionData).date ∧
    (⟨none, none, none, some "car", none⟩ :
        DeduplicationService.TransactionData).amount =
      (⟨none, none, some "", some "car", none⟩ :
        DeduplicationService.TransactionData).amount ∧
    (⟨none, none, none, some "car", none⟩ :
        DeduplicationService.TransactionData).transaction_type =
      (⟨none, none, some "", some "car", none⟩ :
        DeduplicationService.TransactionData).transaction_type := by
  decide

/-- C4 amended: fingerprint sensitivity holds at the level of the normalized
business key: if exactly one of the four normalized components (date string,
two-decimal amount string, employee id with `None` as empty, family with
`None` as empty) differs — the other three agreeing — then, for an injective
digest function, the fingerprints differ. -/
theorem fingerprint_sensitive_normalized (sha256_hex : String → String)
    (hinj : Function.Injective sha256_hex)
    (t1 t2 : DeduplicationService.TransactionData)
    (hcase :
      (DeduplicationService.dateComponent t1.date ≠
          DeduplicationService.dateComponent t2.date ∧
        DeduplicationService.amountComponent t1.amount =
          DeduplicationService.amountComponent t2.amount ∧
        DeduplicationService.pyOrEmpty t1.employee_id =
          DeduplicationService.pyOrEmpty t2.employee_id ∧
        DeduplicationService.pyOrEmpty t1.transaction_type =
          DeduplicationService.pyOrEmpty t2.transaction_type) ∨
      (DeduplicationService.dateComponent t1.date =
          DeduplicationService.dateComponent t2.date ∧
        DeduplicationService.amountComponent t1.amount ≠
          DeduplicationService.amountComponent t2.amount ∧
        DeduplicationService.pyOrEmpty t1.employee_id =
          DeduplicationService.pyOrEmpty t2.employee_id ∧
        DeduplicationService.pyOrEmpty t1.transaction_type =
          DeduplicationService.pyOrEmpty t2.transaction_type) ∨
      (DeduplicationService.dateComponent t1.date =
          DeduplicationService.dateComponent t2.date ∧
        DeduplicationService.amountComponent t1.amount =
          DeduplicationService.amountComponent t2.amount ∧
        DeduplicationService.pyOrEmpty t1.employee_id ≠
          DeduplicationService.pyOrEmpty t2.employee_id ∧
        DeduplicationService.pyOrEmpty t1.transaction_type =
          DeduplicationService.pyOrEmpty t2.transaction_type) ∨
      (DeduplicationService.dateComponent t1.date =
          DeduplicationService.dateComponent t2.date ∧
        DeduplicationService.amountComponent t1.amount =
          DeduplicationService.amountComponent t2.amount ∧
        DeduplicationService.pyOrEmpty t1.employee_id =
          DeduplicationService.pyOrEmpty t2.employee_id ∧
        DeduplicationService.pyOrEmpty t1.transaction_type ≠
          DeduplicationService.pyOrEmpty t2.transaction_type)) :
    DeduplicationService.calculate_transaction_fingerprint sha256_hex t1 ≠
      DeduplicationService.calculate_transaction_fingerprint sha256_hex t2 := by
  intro heq
  have hfs : DeduplicationService.fingerprint_string t1 =
      DeduplicationService.fingerprint_string t2 := hinj heq
  have hdata := congrArg String.data hfs
  simp only [DeduplicationService.fingerprint_string, String.data_append] at hdata
  rcases hcase with ⟨hA, hB, hC, hD⟩ | ⟨hA, hB, hC, hD⟩ | ⟨hA, hB, hC, hD⟩ | ⟨hA, hB, hC, hD⟩
  · rw [congrArg String.data hB, congrArg String.data hC,
      congrArg String.data hD] at hdata
    exact hA (string_data_eq (List.append_cancel_right (List.append_cancel_right
      (List.append_cancel_right (List.append_cancel_right (List.append_cancel_right
        (List.append_cancel_right hdata)))))))
  · rw [congrArg String.data hA, congrArg String.data hC,
      congrArg String.data hD] at hdata
    exact hB (string_data_eq (List.append_cancel_left (List.append_cancel_right
      (List.append_cancel_right (List.append_cancel_right
        (List.append_cancel_right hdata))))))
  · rw [congrArg String.data hA, congrArg String.data hB,
      congrArg String.data hD] at hdata
    exact hC (string_data_eq (List.append_cancel_left (List.append_cancel_right
      (List.append_cancel_right hdata))))
  · rw [congrArg String.data hA, congrArg String.data hB,
      congrArg String.data hC] at hdata
    exact hD (string_data_eq (List.append_cancel_left hdata))

/-- C4 amended witness: two records differing only in the family tag
(`car` versus `receipt`) fingerprint differently under the identity digest. -/
theorem fingerprint_sensitive_normalized_witness :
    DeduplicationService.calculate_transaction_fingerprint id
        ⟨none, none, none, some "car", none⟩ ≠
      DeduplicationService.calculate_transaction_fingerprint id
        ⟨none, none, none, some "receipt", none⟩ :=
  fingerprint_sensitive_normalized id (fun _ _ h => h)
    ⟨none, none, none, some "car", none⟩ ⟨none, none, none, some "receipt", none⟩
    (Or.inr (Or.inr (Or.inr ⟨rfl, rfl, rfl, by decide⟩)))

/-- If some requested page number is out of the 1-indexed range of the source
document, `extract_pages` raises a `SplittingError`. -/
theorem extract_pages_error_of_bad (pages : List SplittingService.Page) (nums : List ℤ)
    (n : ℤ) (hmem : n ∈ nums) (hbad : n < 1 ∨ (pages.length : ℤ) < n) :
    ∃ e, SplittingService.extract_pages pages nums = Except.error e := by
  induction nums with
  | nil => cases hmem
  | cons k rest ih =>
    by_cases hk : (k - 1 < 0 ∨ k - 1 ≥ (pages.length : ℤ))
    · refine ⟨"Page " ++ toString k ++ " out of range for PDF with " ++
        toString pages.length ++ " pages", ?_⟩
      simp only [SplittingService.extract_pages]
      rw [if_pos hk]
    · rcases List.mem_cons.mp hmem with heq | hmem2
      · subst heq
        exfalso
        rcases hbad with hb | hb <;> omega
      · obtain ⟨e, he⟩ := ih hmem2
        refine ⟨e, ?_⟩
        simp only [SplittingService.extract_pages]
        rw [if_neg hk, he]
        rfl

/-- A match with an out-of-range page number on either side makes
`create_match_pdf` fail with a `SplittingError`. -/
theorem create_match_pdf_error_of_bad (car_pdf : List SplittingService.Page)
    (car_pages : List ℤ) (receipt_pdf : List SplittingService.Page)
    (receipt_pages : List ℤ) (mid ts : String)
    (h : (∃ n ∈ car_pages, n < 1 ∨ (car_pdf.length : ℤ) < n) ∨
         (∃ n ∈ receipt_pages, n < 1 ∨ (receipt_pdf.length : ℤ) < n)) :
    ∃ e, SplittingService.create_match_pdf car_pdf car_pages receipt_pdf receipt_pages
      mid ts = Except.error e := by
  rcases h with ⟨n, hmem, hbad⟩ | ⟨n, hmem, hbad⟩
  · obtain ⟨e, he⟩ := extract_pages_error_of_bad car_pdf car_pages n hmem hbad
    refine ⟨e, ?_⟩
    unfold SplittingService.create_match_pdf
    rw [he]
  · cases hcar : SplittingService.extract_pages car_pdf car_pages with
    | error e =>
      refine ⟨e, ?_⟩
      unfold SplittingService.create_match_pdf
      rw [hcar]
    | ok w =>
      obtain ⟨e, he⟩ := extract_pages_error_of_bad receipt_pdf receipt_pages n hmem hbad
      refine ⟨e, ?_⟩
      unfold SplittingService.create_match_pdf
      rw [hcar, he]

/-- Batch export distributes over list concatenation. -/
theorem create_batch_pdfs_append (ts : String) (l1 l2 : List SplittingService.MatchData) :
    SplittingService.create_batch_pdfs ts (l1 ++ l2) =
      SplittingService.create_batch_pdfs ts l1 ++ SplittingService.create_batch_pdfs ts l2 := by
  induction l1 with
  | nil => simp [SplittingService.create_batch_pdfs]
  | cons md rest ih =>
    cases hm : SplittingService.create_match_pdf md.car_pdf_path md.car_pages
        md.receipt_pdf_path md.receipt_pages md.match_id ts with
    | ok pr =>
      obtain ⟨path, total⟩ := pr
      simp [SplittingService.create_batch_pdfs, hm, ih]
    | error e =>
      simp [SplittingService.create_batch_pdfs, hm, ih]

/-- C7: in a batch export, a match whose requested page number lies outside
the 1-indexed page range of its source document makes its `create_match_pdf`
raise a `SplittingError` from page extraction, and that match is skipped
while every other match of the batch is still processed and contributes its
`(match_id, output_path, total_pages)` result — the failure is per-item, not
fatal to the batch. -/
theorem create_batch_pdfs_skips_bad_page (timestamp : String)
    (pre post : List SplittingService.MatchData) (md : SplittingService.MatchData)
    (h : (∃ n ∈ md.car_pages, n < 1 ∨ (md.car_pdf_path.length : ℤ) < n) ∨
         (∃ n ∈ md.receipt_pages, n < 1 ∨ (md.receipt_pdf_path.length : ℤ) < n)) :
    (∃ e, SplittingService.create_match_pdf md.car_pdf_path md.car_pages
        md.receipt_pdf_path md.receipt_pages md.match_id timestamp = Except.error e) ∧
    SplittingService.create_batch_pdfs timestamp (pre ++ md :: post) =
      SplittingService.create_batch_pdfs timestamp pre ++
        SplittingService.create_batch_pdfs timestamp post := by
  obtain ⟨e, he⟩ := create_match_pdf_error_of_bad md.car_pdf_path md.car_pages
    md.receipt_pdf_path md.receipt_pages md.match_id timestamp h
  have hskip : SplittingService.create_batch_pdfs timestamp (md :: post) =
      SplittingService.create_batch_pdfs timestamp post := by
    simp [SplittingService.create_batch_pdfs, he]
  exact ⟨⟨e, he⟩, by rw [create_batch_pdfs_append, hskip]⟩

/-- C7 witness: a three-match batch whose middle match requests page 5 of a
two-page document; the middle match errors and is dropped, the outer two
results survive. -/
theorem create_batch_pdfs_skips_bad_page_witness :
    (∃ e, SplittingService.create_match_pdf
        (⟨"m1", [10, 20], [5], [30], [1]⟩ : SplittingService.MatchData).car_pdf_path
        (⟨"m1", [10, 20], [5], [30], [1]⟩ : SplittingService.MatchData).car_pages
        (⟨"m1", [10, 20], [5], [30], [1]⟩ : SplittingService.MatchData).receipt_pdf_path
        (⟨"m1", [10, 20], [5], [30], [1]⟩ : SplittingService.MatchData).receipt_pages
        (⟨"m1", [10, 20], [5], [30], [1]⟩ : SplittingService.MatchData).match_id
        "TS" = Except.error e) ∧
    SplittingService.create_batch_pdfs "TS"
        ([⟨"m0", [10], [1], [30], [1]⟩] ++
          (⟨"m1", [10, 20], [5], [30], [1]⟩ : SplittingService.MatchData) ::
            [⟨"m2", [10, 20], [1, 2], [30], [1]⟩]) =
      SplittingService.create_batch_pdfs "TS" [⟨"m0", [10], [1], [30], [1]⟩] ++
        SplittingService.create_batch_pdfs "TS" [⟨"m2", [10, 20], [1, 2], [30], [1]⟩] :=
  create_batch_pdfs_skips_bad_page "TS" [⟨"m0", [10], [1], [30], [1]⟩]
    [⟨"m2", [10, 20], [1, 2], [30], [1]⟩] ⟨"m1", [10, 20], [5], [30], [1]⟩
    (Or.inl (by decide))

/-- Every record returned by `_parse_receipt_page` passes the
date-or-amount guard of line 304. -/
theorem parse_receipt_page_key_info (text : String) (page_num : ℕ)
    (t : ExtractionService.ExtractedTransaction)
    (h : ExtractionService._parse_receipt_page text page_num = some t) :
    t.date.isSome ∨ t.amount.isSome := by
  simp only [ExtractionService._parse_receipt_page] at h
  split at h
  · rename_i hcond
    injection h with h2
    subst h2
    rcases bool_or_elim hcond with hA | hB
    · exact Or.inl hA
    · exact Or.inr (pyTruthyFloat_isSome hB)
  · exact Option.noConfusion h

/-- A record returned by `_parse_car_line` only certifies that the line
contains a syntactic `\d{2}/\d{2}/\d{4}` token. -/
theorem parse_car_line_needs_date_token (line : String) (page_num : ℕ)
    (employee_info : Option ExtractionService.EmployeeInfo)
    (u : ExtractionService.ExtractedTransaction)
    (h : ExtractionService._parse_car_line line page_num employee_info = some u) :
    PyRe.findall ExtractionService.CAR_DATE_PATTERN line.toList ≠ [] := by
  simp only [ExtractionService._parse_car_line] at h
  split at h
  · exact Option.noConfusion h
  · rename_i hcond
    intro hnil
    exact hcond (by rw [hnil]; rfl)

/-- C2 counterexample: the line `"13/45/2025"` (a syntactic date token that
is not a valid calendar date, and no currency amount) makes
`_parse_car_line` return a record whose `date` and `amount` are both `None`,
so the statement family violates the claim. -/
theorem parse_car_line_no_key_info_cex :
    Option.map (fun t => (t.date, t.amount))
        (ExtractionService._parse_car_line "13/45/2025" 1 none) =
      some (none, none) := by
  decide

/-- C2 amended: a receipt page yields a record only if a date or an amount
was extracted — every record `_parse_receipt_page` returns has `date` or
`amount` present; for the statement family the guard is weaker:
`_parse_car_line` returns a record only when the line contains a syntactic
`\d{2}/\d{2}/\d{4}` date token, but the returned record can have both `date`
and `amount` equal to `None` (invalid calendar date and no amount). -/
theorem parse_record_key_info (text line : String) (page_num : ℕ)
    (employee_info : Option ExtractionService.EmployeeInfo)
    (dOpt dOpt2 : Option PyDate) (aOpt aOpt2 : Option ℚ) :
    (Option.map (fun t => (t.date, t.amount))
        (ExtractionService._parse_receipt_page text page_num) = some (dOpt, aOpt) →
      dOpt.isSome ∨ aOpt.isSome) ∧
    (Option.map (fun t => (t.date, t.amount))
        (ExtractionService._parse_car_line line page_num employee_info) =
          some (dOpt2, aOpt2) →
      PyRe.findall ExtractionService.CAR_DATE_PATTERN line.toList ≠ []) := by
  constructor
  · intro h
    cases hp : ExtractionService._parse_receipt_page text page_num with
    | none => rw [hp] at h; exact Option.noConfusion h
    | some t =>
      rw [hp] at h
      have h2 : (t.date, t.amount) = (dOpt, aOpt) := Option.some.inj h
      have hd : t.date = dOpt := congrArg Prod.fst h2
      have ha : t.amount = aOpt := congrArg Prod.snd h2
      rw [← hd, ← ha]
      exact parse_receipt_page_key_info text page_num t hp
  · intro h
    cases hp : ExtractionService._parse_car_line line page_num employee_info with
    | none => rw [hp] at h; exact Option.noConfusion h
    | some u => exact parse_car_line_needs_date_token line page_num employee_info u hp

/-- C2 amended witness: a receipt page carrying only a date yields a record
with the date present, and the counterexample line's record certifies its
date token. -/
theorem parse_record_key_info_witness :
    ((some (⟨2025, 1, 15⟩ : PyDate) : Option PyDate).isSome ∨
      (none : Option ℚ).isSome) ∧
    PyRe.findall ExtractionService.CAR_DATE_PATTERN ("13/45/2025".toList) ≠ [] :=
  ⟨(parse_record_key_info "ACME STORE\n01/15/2025" "13/45/2025" 1 none
      (some ⟨2025, 1, 15⟩) none none none).1 (by decide),
   (parse_record_key_info "ACME STORE\n01/15/2025" "13/45/2025" 1 none
      (some ⟨2025, 1, 15⟩) none none none).2 (by decide)⟩
